import Mathlib

/-!
Verification development for the regime-news-model repository.

The Python sources under src/regime_news are shallowly embedded here:
  * strings that undergo Python case/strip operations (event names, symbols)
    are modelled as lists of code points (List Nat), with ASCII upper-casing;
    strings only compared for equality stay Lean String;
  * Python float arithmetic is modelled over ℚ (all constants in the source
    are decimal literals);
  * datetimes are instants in microseconds since the epoch (Int), the
    resolution of Python datetime; timedelta(days=d) is d * 86400000000 μs;
  * pandas Series are List (Option ℚ), none standing for NaN.
-/

/-! ### Python string model (event_overlay.py uses str.upper / str.strip / in) -/

/-- Code points of a Lean string literal, used to write Python string
constants such as the keyword tables. -/
def codes (s : String) : List Nat := s.data.map Char.toNat

/-- ASCII model of Python str.upper on one code point. -/
def upperCode (n : Nat) : Nat := if 97 ≤ n ∧ n ≤ 122 then n - 32 else n

/-- Python s.upper(), code-point-wise (ASCII model). -/
def upperStr (l : List Nat) : List Nat := l.map upperCode

/-- Whitespace recognised by Python str.strip (ASCII model). -/
def isSpaceCode (n : Nat) : Bool := n == 32 || (9 ≤ n && n ≤ 13)

/-- Python s.strip(): remove leading and trailing whitespace. -/
def stripCodes (l : List Nat) : List Nat :=
  ((l.dropWhile isSpaceCode).reverse.dropWhile isSpaceCode).reverse

/-- Python list/string prefix test used to implement substring search. -/
def isPrefixCodes : List Nat → List Nat → Bool
  | [], _ => true
  | _ :: _, [] => false
  | a :: as, b :: bs => a == b && isPrefixCodes as bs

/-- Python substring containment, pat in s. -/
def containsCodes (pat s : List Nat) : Bool :=
  match s with
  | [] => isPrefixCodes pat []
  | b :: rest => isPrefixCodes pat (b :: rest) || containsCodes pat rest

/-! ### Stable sort model (Python sorted(..., key=...) is a stable ascending sort) -/

/-- Insert a before the first element b with le a b; later equal elements
stay behind a, matching the stability of Python sorted. -/
def insertLe {α : Type} (le : α → α → Bool) (a : α) : List α → List α
  | [] => [a]
  | b :: bs => if le a b then a :: b :: bs else b :: insertLe le a bs

/-- Stable insertion sort modelling Python sorted. -/
def sortLe {α : Type} (le : α → α → Bool) : List α → List α
  | [] => []
  | a :: as => insertLe le a (sortLe le as)

/-- Lexicographic comparison on code-point lists, modelling Python string
order for sorted(set-of-symbols) in the earnings note. -/
def lexLe : List Nat → List Nat → Bool
  | [], _ => true
  | _ :: _, [] => false
  | a :: as, b :: bs => if a == b then lexLe as bs else a < b

/-! ### Data model (events_model.py) -/

/-- events_model.RegimeState. -/
structure RegimeState where
  regime_name : String
  confidence : ℚ
  regime_id : Option Int := none
deriving DecidableEq

/-- events_model.MacroEvent (name/country/category as code points where
Python applies case operations, plain String otherwise). -/
structure MacroEvent where
  event : List Nat
  country : String
  category : String
  datetime_utc : Int
  importance : Int
  actual : Option ℚ := none
  forecast : Option ℚ := none
  previous : Option ℚ := none
  source : Option String := none
  url : Option String := none
deriving DecidableEq

/-- events_model.CompanyEvent. -/
structure CompanyEvent where
  symbol : List Nat
  event_type : String
  datetime_utc : Int
  meta : List (String × String) := []
deriving DecidableEq

/-- One entry of the notes audit trail.  The source appends formatted
strings; each constructor carries exactly the data interpolated into the
corresponding f-string of event_overlay.py. -/
inductive Note where
  /-- Regime=... conf=... base_mult=... -/
  | header (regime_name : String) (confidence : ℚ) (base_mult : ℚ)
  /-- Macro(..d) n=.. worst=.. imp=.. sev=.. -/
  | macroInfo (window_days : Int) (n : Nat) (worst_event : List Nat)
      (worst_importance : Int) (worst_sev : ℚ)
  /-- Tighten stops: major macro catalyst in window. -/
  | tightenNote
  /-- Risk-off + high-severity macro -> block new positions; reduce risk. -/
  | riskOffBlock
  /-- Transition + high-severity macro -> block new positions; defensive posture. -/
  | transitionBlock
  /-- Very high macro severity -> reduce risk multiplier. -/
  | highSeverity
  /-- No macro events in ..d window. -/
  | noMacroEvents (window_days : Int)
  /-- Earnings(..d) n=.. impacted=.. (full sorted de-duplicated symbol list;
  the source prints its first 12 entries and an ellipsis flag). -/
  | earningsInfo (window_days : Int) (n : Nat) (impacted : List (List Nat))
  /-- Late-cycle/Transition + earnings -> reduce portfolio risk modestly. -/
  | lateCycleEarnings
  /-- Risk-off + earnings -> reduce portfolio risk. -/
  | riskOffEarnings
  /-- Company events(..d) n=.. (no earnings). -/
  | companyNoEarnings (window_days : Int) (n : Nat)
  /-- No company events in ..d window. -/
  | noCompanyEvents (window_days : Int)
  /-- Low regime confidence -> reduce risk modestly. -/
  | lowConfidence
deriving DecidableEq

/-- events_model.EventOverlayDecision, with notes as the ordered list of
audit entries (the source pipe-joins their rendered strings). -/
structure EventOverlayDecision where
  allow_new_positions : Bool
  risk_multiplier : ℚ
  tighten_stops : Bool
  notes : List Note
deriving DecidableEq

/-! ### event_overlay.py -/

namespace EventOverlayEngine

/-- Microseconds in one day: timedelta(days=1). -/
def dayUs : Int := 86400000000

/-- event_overlay.OverlayConfig with the defaults installed by
__post_init__. -/
structure OverlayConfig where
  macro_window_days : Int := 3
  company_window_days : Int := 7
  base_risk_multiplier : List (String × ℚ) :=
    [("risk_on", 1), ("late_cycle", 17/20), ("transition", 7/10), ("risk_off", 1/2)]
  high_severity_keywords : List (List Nat) :=
    [codes ("FOMC"), codes ("FED"), codes ("RATE"), codes ("INTEREST"),
     codes ("CPI"), codes ("INFLATION"),
     codes ("NFP"), codes ("NONFARM"), codes ("JOBS"), codes ("UNEMPLOYMENT"),
     codes ("GDP")]
  tighten_stop_keywords : List (List Nat) :=
    [codes ("FOMC"), codes ("FED"), codes ("RATE"), codes ("CPI"),
     codes ("INFLATION"), codes ("NFP"), codes ("NONFARM")]
deriving DecidableEq

/-- The OverlayConfig() used by EventOverlayEngine() when none is given. -/
def defaultConfig : OverlayConfig := {}

/-- dict.get on the base multiplier table with default (decide line 106:
cfg.base_risk_multiplier.get(regime.regime_name, 0.75)). -/
def lookupQ (m : List (String × ℚ)) (k : String) (d : ℚ) : ℚ :=
  match m.find? (fun p => p.1 == k) with
  | some p => p.2
  | none => d

/-- _within_window (lines 62-70): keep events whose datetime_utc lies in
[now, now + days] and return them sorted ascending by timestamp.  The
evaluation instant now, read from the clock in the source, is an explicit
parameter here. -/
def within_window {α : Type} (key : α → Int) (now : Int) (days : Int)
    (events : List α) : List α :=
  sortLe (fun a b => decide (key a ≤ key b))
    (events.filter (fun e => decide (now ≤ key e) && decide (key e ≤ now + days * dayUs)))

/-- int(e.importance or 1): Python or yields 1 exactly when importance is
falsy, i.e. 0. -/
def impOr1 (e : MacroEvent) : Int := if e.importance = 0 then 1 else e.importance

/-- _macro_severity (lines 72-85). -/
def macroSeverity (cfg : OverlayConfig) (e : MacroEvent) : ℚ :=
  let imp := impOr1 e
  let base : ℚ := if imp = 1 then 1/4 else if imp = 2 then 11/20
    else if imp = 3 then 17/20 else 7/20
  let name := upperStr e.event
  if cfg.high_severity_keywords.any (fun k => containsCodes k name) then
    min 1 (base + 3/20)
  else base

/-- _tighten_stops (lines 87-94): some event has importance ≥ 2 (after the
falsy-importance guard) and a tighten-stop keyword in its uppercased name. -/
def tightenStopsCheck (cfg : OverlayConfig) (l : List MacroEvent) : Bool :=
  l.any (fun e =>
    decide (2 ≤ impOr1 e) && cfg.tighten_stop_keywords.any
      (fun k => containsCodes k (upperStr e.event)))

/-- max(upcoming_macro, key=self._macro_severity): Python max keeps the
current element unless a strictly larger key appears, so the first maximal
element wins. -/
def maxBySev (cfg : OverlayConfig) (a : MacroEvent) (l : List MacroEvent) : MacroEvent :=
  l.foldl (fun acc e => if macroSeverity cfg acc < macroSeverity cfg e then e else acc) a

/-- The worst event the macro overlay would select from a windowed list
(none when the window is empty). -/
def worstOf (cfg : OverlayConfig) : List MacroEvent → Option MacroEvent
  | [] => none
  | a :: rest => some (maxBySev cfg a rest)

/-- Macro overlay block of decide (lines 116-142): returns
(allow_new, multiplier, tighten_stops, notes). -/
def macroGate (cfg : OverlayConfig) (regime : RegimeState) (base0 : ℚ)
    (notes0 : List Note) (upcoming : List MacroEvent) : Bool × ℚ × Bool × List Note :=
  match upcoming with
  | [] => (true, base0, false, notes0 ++ [Note.noMacroEvents cfg.macro_window_days])
  | a :: rest =>
    let worst := maxBySev cfg a rest
    let wsev := macroSeverity cfg worst
    let n1 := notes0 ++ [Note.macroInfo cfg.macro_window_days (a :: rest).length
      worst.event worst.importance wsev]
    let ts := tightenStopsCheck cfg (a :: rest)
    let n2 := if ts then n1 ++ [Note.tightenNote] else n1
    if regime.regime_name = "risk_off" ∧ 7/10 ≤ wsev then
      (false, base0 * (7/10), ts, n2 ++ [Note.riskOffBlock])
    else if regime.regime_name = "transition" ∧ 7/10 ≤ wsev then
      (false, base0 * (4/5), ts, n2 ++ [Note.transitionBlock])
    else if 17/20 ≤ wsev then
      (true, base0 * (17/20), ts, n2 ++ [Note.highSeverity])
    else (true, base0, ts, n2)

/-- decide lines 145-147: the portfolio symbol set, None when
portfolio_symbols is absent or empty (Python truthiness), otherwise the
set of upper-cased stripped symbols, skipping empty/whitespace entries. -/
def symsetOf (portfolio_symbols : Option (List (List Nat))) : Option (List (List Nat)) :=
  match portfolio_symbols with
  | none => none
  | some l =>
    if l = [] then none
    else some ((l.filter (fun s => !s.isEmpty && !(stripCodes s).isEmpty)).map
      (fun s => stripCodes (upperStr s)))

/-- decide line 150: events whose symbol, verbatim, is in the symbol set
(all events when the set is None). -/
def relevantOf (symset : Option (List (List Nat))) (l : List CompanyEvent) :
    List CompanyEvent :=
  l.filter (fun e =>
    match symset with
    | none => true
    | some ss => ss.contains e.symbol)

/-- decide line 151: relevant events of type earnings. -/
def earningsOf (l : List CompanyEvent) : List CompanyEvent :=
  l.filter (fun e => e.event_type == "earnings")

/-- Company overlay block of decide (lines 144-170): returns the updated
(multiplier, notes). -/
def companyGate (cfg : OverlayConfig) (regime : RegimeState) (mult1 : ℚ)
    (notes1 : List Note) (upcoming : List CompanyEvent)
    (portfolio_symbols : Option (List (List Nat))) : ℚ × List Note :=
  let symset := symsetOf portfolio_symbols
  match upcoming with
  | [] => (mult1, notes1 ++ [Note.noCompanyEvents cfg.company_window_days])
  | a :: rest =>
    let relevant := relevantOf symset (a :: rest)
    let earnings := earningsOf relevant
    match earnings with
    | [] => (mult1, notes1 ++ [Note.companyNoEarnings cfg.company_window_days relevant.length])
    | e0 :: es =>
      let impacted := sortLe lexLe ((e0 :: es).map (fun e => e.symbol)).dedup
      let n2 := notes1 ++ [Note.earningsInfo cfg.company_window_days (e0 :: es).length impacted]
      if regime.regime_name = "late_cycle" ∨ regime.regime_name = "transition" then
        (mult1 * (9/10), n2 ++ [Note.lateCycleEarnings])
      else if regime.regime_name = "risk_off" then
        (mult1 * (17/20), n2 ++ [Note.riskOffEarnings])
      else (mult1, n2)

/-- Body of decide once the two windowed lists are fixed (lines 103-185). -/
def decideCore (cfg : OverlayConfig) (regime : RegimeState)
    (macroUpcoming : List MacroEvent) (companyUpcoming : List CompanyEvent)
    (portfolio_symbols : Option (List (List Nat))) : EventOverlayDecision :=
  let base0 := lookupQ cfg.base_risk_multiplier regime.regime_name (3/4)
  let notes0 : List Note := [Note.header regime.regime_name regime.confidence base0]
  let ms := macroGate cfg regime base0 notes0 macroUpcoming
  let allow1 := ms.1
  let mult1 := ms.2.1
  let ts1 := ms.2.2.1
  let notes1 := ms.2.2.2
  let cs := companyGate cfg regime mult1 notes1 companyUpcoming portfolio_symbols
  let mult2 := cs.1
  let notes2 := cs.2
  let mult3 := if regime.confidence < 11/20 then mult2 * (23/25) else mult2
  let notes3 := if regime.confidence < 11/20 then notes2 ++ [Note.lowConfidence] else notes2
  { allow_new_positions := allow1
    risk_multiplier := max (1/10) (min mult3 (5/4))
    tighten_stops := ts1
    notes := notes3 }

/-- EventOverlayEngine.decide (lines 96-185).  The source reads the clock
through _utc_now inside _within_window; that instant is the explicit now
parameter. -/
def decide (cfg : OverlayConfig) (now : Int) (regime : RegimeState)
    (macro_events : List MacroEvent) (company_events : List CompanyEvent)
    (portfolio_symbols : Option (List (List Nat)) := none) : EventOverlayDecision :=
  decideCore cfg regime
    (within_window (fun e => e.datetime_utc) now cfg.macro_window_days macro_events)
    (within_window (fun e => e.datetime_utc) now cfg.company_window_days company_events)
    portfolio_symbols

end EventOverlayEngine

/-! ### regime_policy.py -/

namespace RegimePolicy

/-- _max_prob (lines 8-14): 0.0 for an empty dict, otherwise the maximum
value; max on a non-empty collection of numbers cannot raise, so the
except branch is unreachable. -/
def max_prob (regime_probs : List (String × ℚ)) : ℚ :=
  match regime_probs with
  | [] => 0
  | p :: rest => (rest.map (fun q => q.2)).foldl max p.2

/-- The literal dict mapping_3 of map_regime_to_policy. -/
def mapping_3 : List (Int × String) := [(0, "risk_on"), (1, "late_cycle"), (2, "risk_off")]

/-- The literal dict mapping_2 of map_regime_to_policy. -/
def mapping_2 : List (Int × String) := [(0, "risk_on"), (1, "risk_off")]

/-- Dict membership/lookup on the small literal tables. -/
def lookupTable (m : List (Int × String)) (k : Int) : Option String :=
  (m.find? (fun p => p.1 == k)).map (fun p => p.2)

/-- map_regime_to_policy (lines 17-54): transition below confidence 0.60,
otherwise lookup in mapping_3 first, then mapping_2, else transition. -/
def map_regime_to_policy (regime_id : Int) (regime_probs : List (String × ℚ)) :
    RegimeState :=
  let conf := max_prob regime_probs
  if conf < 3/5 then
    { regime_name := "transition", confidence := conf, regime_id := some regime_id }
  else
    let name :=
      match lookupTable mapping_3 regime_id with
      | some n => n
      | none =>
        match lookupTable mapping_2 regime_id with
        | some n => n
        | none => "transition"
    { regime_name := name, confidence := conf, regime_id := some regime_id }

end RegimePolicy

/-! ### fusion.py -/

/-- pandas Series.shift(-k): drop the first k values and pad with NaN at
the end, preserving length. -/
def pdShift (k : Nat) (xs : List (Option ℚ)) : List (Option ℚ) :=
  xs.drop k ++ List.replicate (min k xs.length) none

/-- Sum of a window, NaN if any entry is NaN. -/
def osum : List (Option ℚ) → Option ℚ
  | [] => some 0
  | none :: _ => none
  | some x :: rest =>
    match osum rest with
    | some s => some (x + s)
    | none => none

/-- pandas Series.rolling(h).sum(): at position i the sum of the h entries
ending at i; NaN while fewer than h periods are available. -/
def pdRollingSum (h : Nat) (xs : List (Option ℚ)) : List (Option ℚ) :=
  (List.range xs.length).map
    (fun i => if i + 1 < h then none else osum ((xs.drop (i + 1 - h)).take h))

/-- fusion.forward_log_return (lines 4-5):
ret_1d.shift(-1).rolling(horizon).sum().shift(-(horizon - 1)). -/
def forward_log_return (ret_1d : List (Option ℚ)) (horizon : Nat) : List (Option ℚ) :=
  pdShift (horizon - 1) (pdRollingSum horizon (pdShift 1 ret_1d))

/-- tmp.dropna() over the two columns (regime, fwd): regimes are integers
and never NaN, so exactly the rows with a defined forward return survive. -/
def dropnaPairs (regimes : List Int) (fwd : List (Option ℚ)) : List (Int × ℚ) :=
  (regimes.zip fwd).filterMap
    (fun p => match p.2 with | some v => some (p.1, v) | none => none)

/-- groupby("regime"): the forward returns of the rows with label r. -/
def groupVals (rows : List (Int × ℚ)) (r : Int) : List ℚ :=
  rows.filterMap (fun p => if p.1 = r then some p.2 else none)

/-- pandas Series.quantile with linear interpolation on the sorted values;
none on an empty group (groupby never produces one). -/
def pdQuantile (vals : List ℚ) (p : ℚ) : Option ℚ :=
  match sortLe (fun a b => decide (a ≤ b)) vals with
  | [] => none
  | v :: vs =>
    let s := v :: vs
    let m := s.length
    let pos := p * ((m : ℚ) - 1)
    let k := (Rat.floor pos).toNat
    let f := pos - (k : ℚ)
    if k + 1 < m then some (s.getD k 0 + f * (s.getD (k + 1) 0 - s.getD k 0))
    else some (s.getD k 0)

/-- fusion.regime_conditioned_quantiles (lines 7-16), at one horizon h and
one regime label r: the (q05, q50, q95) entry of the returned table (none
components exactly when label r has no surviving rows). -/
def regime_conditioned_quantiles (regimes : List Int) (ret_1d : List (Option ℚ))
    (h : Nat) (r : Int) : Option ℚ × Option ℚ × Option ℚ :=
  let fwd := forward_log_return ret_1d h
  let rows := dropnaPairs regimes fwd
  let vals := groupVals rows r
  (pdQuantile vals (1/20), pdQuantile vals (1/2), pdQuantile vals (19/20))

/-- Specification-side description of the values that survive for horizon h
and regime r: the forward return of row i is the sum of the returns at
i+1 .. i+h, and the final h rows are dropped.  Compared against the
composed pandas pipeline in the C5 theorem. -/
def keptVals (ret : List ℚ) (regimes : List Int) (h : Nat) (r : Int) : List ℚ :=
  (List.range (ret.length - h)).filterMap
    (fun i => if regimes.getD i 0 = r then some (((ret.drop (i + 1)).take h).sum) else none)

/-! ### news summary record and fusion.watchouts -/

/-- The news summary dict consumed by the pipeline; err models the extra
error key attached in the degraded branch of run_pipeline. -/
structure NewsMeta where
  news_sentiment : Int
  news_risk : Int
  topics : List (String × Int)
  err : Option String := none
deriving DecidableEq

/-- Key lookup in a pandas Series row modelled as an association list
(both the membership test and the value access). -/
def lookupCol (l : List (String × ℚ)) (k : String) : Option ℚ :=
  (l.find? (fun p => p.1 == k)).map (fun p => p.2)

/-- Maximum of the values of a non-empty association list. -/
def maxVal (p : String × ℚ) (rest : List (String × ℚ)) : ℚ :=
  (rest.map (fun q => q.2)).foldl max p.2

/-- fusion.watchouts (lines 18-37). -/
def watchouts (latest : List (String × ℚ)) (news_meta : NewsMeta) : List String :=
  let p_cols := latest.filter (fun p => p.1.startsWith ("p_regime_"))
  let flags1 : List String :=
    match p_cols with
    | [] => []
    | q :: qs =>
      if maxVal q qs < 3/5 then
        [("Regime uncertainty rising (probabilities are mixed).")]
      else []
  let flags2 :=
    match lookupCol latest ("vol_20d"), lookupCol latest ("vol_60d") with
    | some v20, some v60 =>
      if v60 * (23/20) < v20 then
        flags1 ++ [("Short-term volatility is spiking vs medium-term baseline.")]
      else flags1
    | _, _ => flags1
  let flags3 :=
    match lookupCol latest ("dd_252d") with
    | some dd =>
      if dd < -(1/5) then
        flags2 ++ [("In a deep drawdown zone (higher fragility / headline sensitivity).")]
      else flags2
    | none => flags2
  let flags4 :=
    if 2 ≤ news_meta.news_risk then
      flags3 ++ [("Multiple risk headlines recently (watch for gap risk / IV expansion).")]
    else flags3
  flags4 ++ news_meta.topics.filterMap
    (fun p => if 2 ≤ p.2 then
      some (("News topic cluster: ") ++ p.1 ++ (" (increased event risk).")) else none)

/-! ### pipeline.py

run_pipeline drives external collaborators (price loading, the pandas
feature builder, the scikit-learn mixture fit, the news fetch).  Those are
not algorithmic code of this module: their outcomes for the run are the
fields of PipelineEnv, and the control flow, guard checks, diagnostics and
report assembly of pipeline.py are embedded over them.  P and F are the
row types of the price and feature tables, of which only counts are read. -/

namespace Pipeline

/-- One row of the fitted regime table: its index date, the hard regime
label, and the remaining columns (features and p_regime_* probabilities)
as a pandas-row association list. -/
structure RegimeRow where
  date : String
  regime : Int
  cols : List (String × ℚ)
deriving DecidableEq

/-- Outcome of fit_gmm_regimes: the labelled table; hasRegimeCol records
whether the regime column is present (the source checks it). -/
structure FitOut where
  rows : List RegimeRow
  hasRegimeCol : Bool
deriving DecidableEq

/-- The ValueError exits of run_pipeline as a typed failure. -/
inductive PipelineError where
  | badNRegimes
  | insufficientPrices (ticker : String) (got : Nat)
  | insufficientMarket (market_ticker : String) (got : Nat)
  | insufficientFeatures (ticker : String) (got : Nat)
  | insufficientAfterCleaning (got : Nat)
  | emptyFit
  | missingRegimeColumn
deriving DecidableEq

/-- The exact message strings raised by run_pipeline (literals split so the
row count and the minimum are visible sub-strings). -/
def renderError : PipelineError → String
  | PipelineError.badNRegimes =>
    "n_regimes must be 2 or 3 during training (set --n_regimes 2 or 3)."
  | PipelineError.insufficientPrices t n =>
    "Not enough price data for " ++ t ++ ". Need >= " ++ "60" ++ " rows, got "
      ++ toString n ++ "."
  | PipelineError.insufficientMarket mt n =>
    "Not enough price data for market_ticker=" ++ mt ++ ". Need >= " ++ "60"
      ++ " rows, got " ++ toString n ++ "."
  | PipelineError.insufficientFeatures t n =>
    "Not enough feature rows for " ++ t ++ ". Need >= " ++ "60" ++ ", got "
      ++ toString n ++ "."
  | PipelineError.insufficientAfterCleaning n =>
    "After cleaning/alignment, not enough rows to fit regimes. Got "
      ++ toString n ++ " rows."
  | PipelineError.emptyFit => "Regime fitting returned empty output."
  | PipelineError.missingRegimeColumn => "regime_df missing required column: regime"

/-- The row count carried by an insufficient-rows error. -/
def errGot : PipelineError → Nat
  | PipelineError.insufficientPrices _ n => n
  | PipelineError.insufficientMarket _ n => n
  | PipelineError.insufficientFeatures _ n => n
  | PipelineError.insufficientAfterCleaning n => n
  | _ => 0

/-- Whether an error is one of the row-count (InsufficientData) failures. -/
def isRowCountError : PipelineError → Bool
  | PipelineError.insufficientPrices _ _ => true
  | PipelineError.insufficientMarket _ _ => true
  | PipelineError.insufficientFeatures _ _ => true
  | PipelineError.insufficientAfterCleaning _ => true
  | _ => false

/-- Inputs and collaborator outcomes of one run_pipeline invocation. -/
structure PipelineEnv (P F : Type) where
  ticker : String
  market_ticker : String
  n_regimes : Int
  /-- load_prices for the target ticker. -/
  px : Option (List P)
  /-- load_prices for the market ticker. -/
  mkt : Option (List P)
  /-- build_features output table (rows with undefined statistics trimmed). -/
  feats : Option (List F)
  /-- The feature table after the dropna/ffill/bfill/alignment block
  (lines 56-69), whose row count line 71 checks. -/
  cleaned : List F
  /-- ret_1d aligned to the cleaned table. -/
  ret : List (Option ℚ)
  /-- fit_gmm_regimes outcome (none models a None regime_df). -/
  fit : Option FitOut
  /-- Combined outcome of fetch_google_news_rss / score_articles /
  summarize; error carries str(e) of the raised exception. -/
  news : Except String NewsMeta

/-- value_counts().sort_index() of the regime column. -/
def valueCounts (rows : List RegimeRow) : List (Int × Nat) :=
  (sortLe (fun a b => decide (a ≤ b)) ((rows.map (fun r => r.regime)).dedup)).map
    (fun l => (l, (rows.filter (fun r => r.regime == l)).length))

/-- regime_counts.min() with the 0 default of line 90. -/
def minCount (l : List (Int × Nat)) : Nat :=
  match l.map (fun p => p.2) with
  | [] => 0
  | c :: cs => cs.foldl min c

/-- Option row count with the 0-if-None convention of the error messages. -/
def optCount {β : Type} : Option (List β) → Nat
  | none => 0
  | some l => l.length

/-- q[h].loc[current].to_dict() if current in q[h].index else {}: the
grouped quantiles exist exactly when the label has surviving rows. -/
def tripleOf (t : Option ℚ × Option ℚ × Option ℚ) : Option (ℚ × ℚ × ℚ) :=
  match t with
  | (some a, some b, some c) => some (a, b, c)
  | _ => none

/-- The report dict (lines 103-144): news degradation, latest-row outputs,
quantile fusion, watchouts and diagnostics. -/
structure Report where
  ticker : String
  asof : String
  regime : Int
  regime_probs : List (String × ℚ)
  expected_5d : Option (ℚ × ℚ × ℚ)
  expected_20d : Option (ℚ × ℚ × ℚ)
  news : NewsMeta
  watchouts : List String
  n_rows_used : Nat
  n_regimes_used : Int
  regime_counts : List (Int × Nat)
  min_regime_size : Nat
  /-- The imbalance warning with its interpolated numbers
  (smallest regime size, total rows). -/
  warning : Option (Nat × Nat)
deriving DecidableEq

/-- Report assembly once a fit is available (lines 84-144). -/
def buildReport {P F : Type} (env : PipelineEnv P F) (fo : FitOut) : Report :=
  let regime_counts := valueCounts fo.rows
  let min_regime_size := minCount regime_counts
  let warning :=
    if ((min_regime_size : ℚ) / (fo.rows.length : ℚ)) < 1/20 then
      some (min_regime_size, fo.rows.length)
    else none
  let news_meta :=
    match env.news with
    | Except.ok m => m
    | Except.error e => { news_sentiment := 0, news_risk := 0, topics := [], err := some e }
  let latest := fo.rows.getLastD { date := "", regime := 0, cols := [] }
  let current := latest.regime
  let regimes := fo.rows.map (fun r => r.regime)
  { ticker := env.ticker
    asof := latest.date
    regime := current
    regime_probs := latest.cols.filter (fun p => p.1.startsWith ("p_regime_"))
    expected_5d := tripleOf (regime_conditioned_quantiles regimes env.ret 5 current)
    expected_20d := tripleOf (regime_conditioned_quantiles regimes env.ret 20 current)
    news := news_meta
    watchouts := watchouts latest.cols news_meta
    n_rows_used := fo.rows.length
    n_regimes_used := env.n_regimes
    regime_counts := regime_counts
    min_regime_size := min_regime_size
    warning := warning }

/-- pipeline.run_pipeline (lines 13-144): the guards in source order
(each row check is the literal "table is None or len(table) < 60", whose
reported count is 0 for None), then the report. -/
def run_pipeline {P F : Type} (env : PipelineEnv P F) : Except PipelineError Report :=
  if env.n_regimes = 2 ∨ env.n_regimes = 3 then
    if env.px.isNone = true ∨ optCount env.px < 60 then
      Except.error (PipelineError.insufficientPrices env.ticker (optCount env.px))
    else if env.mkt.isNone = true ∨ optCount env.mkt < 60 then
      Except.error (PipelineError.insufficientMarket env.market_ticker (optCount env.mkt))
    else if env.feats.isNone = true ∨ optCount env.feats < 60 then
      Except.error (PipelineError.insufficientFeatures env.ticker (optCount env.feats))
    else if env.cleaned.length < 60 then
      Except.error (PipelineError.insufficientAfterCleaning env.cleaned.length)
    else
      match env.fit with
      | none => Except.error PipelineError.emptyFit
      | some fo =>
        if fo.rows.length = 0 then Except.error PipelineError.emptyFit
        else if fo.hasRegimeCol = false then
          Except.error PipelineError.missingRegimeColumn
        else Except.ok (buildReport env fo)
  else Except.error PipelineError.badNRegimes

/-- The conditions under which run_pipeline reaches the report stage. -/
def preChecks {P F : Type} (env : PipelineEnv P F) : Prop :=
  (env.n_regimes = 2 ∨ env.n_regimes = 3) ∧
  (∃ l, env.px = some l ∧ 60 ≤ l.length) ∧
  (∃ l, env.mkt = some l ∧ 60 ≤ l.length) ∧
  (∃ l, env.feats = some l ∧ 60 ≤ l.length) ∧
  60 ≤ env.cleaned.length ∧
  (∃ fo, env.fit = some fo ∧ fo.rows ≠ [] ∧ fo.hasRegimeCol = true)

end Pipeline

/-! ### Lemmas about the stable sort -/

theorem insertLe_perm {α : Type} (le : α → α → Bool) (a : α) (l : List α) :
    (insertLe le a l).Perm (a :: l) := by
  induction l with
  | nil => exact List.Perm.refl _
  | cons b bs ih =>
    unfold insertLe
    by_cases h : le a b = true
    · simp [h]
    · simp only [h, if_false, Bool.false_eq_true]
      exact List.Perm.trans (List.Perm.cons b ih) (List.Perm.swap a b bs)

theorem sortLe_perm {α : Type} (le : α → α → Bool) (l : List α) :
    (sortLe le l).Perm l := by
  induction l with
  | nil => exact List.Perm.refl _
  | cons a as ih =>
    exact List.Perm.trans (insertLe_perm le a (sortLe le as)) (List.Perm.cons a ih)

theorem mem_sortLe {α : Type} (le : α → α → Bool) (l : List α) (x : α) :
    x ∈ sortLe le l ↔ x ∈ l :=
  (sortLe_perm le l).mem_iff

theorem pairwise_insertLe {α : Type} (le : α → α → Bool)
    (htot : ∀ a b, le a b = true ∨ le b a = true)
    (htrans : ∀ a b c, le a b = true → le b c = true → le a c = true)
    (a : α) (l : List α) (h : l.Pairwise (fun x y => le x y = true)) :
    (insertLe le a l).Pairwise (fun x y => le x y = true) := by
  induction l with
  | nil => simp [insertLe]
  | cons b bs ih =>
    rw [List.pairwise_cons] at h
    obtain ⟨hb, hbs⟩ := h
    unfold insertLe
    by_cases hab : le a b = true
    · simp only [hab, if_true]
      rw [List.pairwise_cons]
      refine ⟨?_, ?_⟩
      · intro x hx
        rcases List.mem_cons.mp hx with rfl | hx2
        · exact hab
        · exact htrans a b x hab (hb x hx2)
      · rw [List.pairwise_cons]
        exact ⟨hb, hbs⟩
    · simp only [hab, if_false, Bool.false_eq_true]
      rw [List.pairwise_cons]
      refine ⟨?_, ih hbs⟩
      intro x hx
      rcases List.mem_cons.mp ((insertLe_perm le a bs).mem_iff.mp hx) with rfl | hx2
      · rcases htot x b with h1 | h2
        · exact absurd h1 hab
        · exact h2
      · exact hb x hx2

theorem pairwise_sortLe {α : Type} (le : α → α → Bool)
    (htot : ∀ a b, le a b = true ∨ le b a = true)
    (htrans : ∀ a b c, le a b = true → le b c = true → le a c = true)
    (l : List α) : (sortLe le l).Pairwise (fun x y => le x y = true) := by
  induction l with
  | nil => simp [sortLe]
  | cons a as ih => exact pairwise_insertLe le htot htrans a (sortLe le as) ih

/-- C4: the event-windowing step keeps exactly the events whose timestamp
lies in the closed interval [now, now + window_days] (the boundary instant
included, anything later excluded) and returns them sorted ascending by
timestamp; it is moreover a permutation of the filtered input, so no event
is duplicated or invented. -/
theorem within_window_spec {α : Type} (key : α → Int) (now days : Int)
    (events : List α) :
    (EventOverlayEngine.within_window key now days events).Perm
      (events.filter (fun e =>
        decide (now ≤ key e) && decide (key e ≤ now + days * EventOverlayEngine.dayUs)))
  ∧ (EventOverlayEngine.within_window key now days events).Pairwise
      (fun a b => key a ≤ key b)
  ∧ ∀ e, e ∈ EventOverlayEngine.within_window key now days events ↔
      (e ∈ events ∧ now ≤ key e ∧ key e ≤ now + days * EventOverlayEngine.dayUs) := by
  refine ⟨sortLe_perm _ _, ?_, ?_⟩
  · have hp := pairwise_sortLe (fun a b : α => decide (key a ≤ key b))
      (fun a b => by
        rcases le_total (key a) (key b) with h | h
        · exact Or.inl (decide_eq_true h)
        · exact Or.inr (decide_eq_true h))
      (fun a b c hab hbc =>
        decide_eq_true (le_trans (of_decide_eq_true hab) (of_decide_eq_true hbc)))
      (events.filter (fun e =>
        decide (now ≤ key e) && decide (key e ≤ now + days * EventOverlayEngine.dayUs)))
    exact hp.imp (fun h => of_decide_eq_true h)
  · intro e
    rw [EventOverlayEngine.within_window, mem_sortLe, List.mem_filter,
      Bool.and_eq_true, decide_eq_true_eq, decide_eq_true_eq]

/-! ### C1 and C10: the decision record -/

theorem decideCore_risk_shape (cfg : EventOverlayEngine.OverlayConfig)
    (regime : RegimeState) (mu : List MacroEvent) (cu : List CompanyEvent)
    (p : Option (List (List Nat))) :
    ∃ x, (EventOverlayEngine.decideCore cfg regime mu cu p).risk_multiplier =
      max (1/10) (min x (5/4)) :=
  ⟨_, rfl⟩

/-- C1: for every configuration, evaluation instant, regime state, macro
and company event lists and optional portfolio symbols, the returned
risk_multiplier lies in the closed interval [0.10, 1.25]. -/
theorem decide_risk_multiplier_in_range (cfg : EventOverlayEngine.OverlayConfig)
    (now : Int) (regime : RegimeState) (m : List MacroEvent)
    (c : List CompanyEvent) (p : Option (List (List Nat))) :
    1/10 ≤ (EventOverlayEngine.decide cfg now regime m c p).risk_multiplier ∧
    (EventOverlayEngine.decide cfg now regime m c p).risk_multiplier ≤ 5/4 := by
  obtain ⟨x, hx⟩ := decideCore_risk_shape cfg regime
    (EventOverlayEngine.within_window (fun e => e.datetime_utc) now cfg.macro_window_days m)
    (EventOverlayEngine.within_window (fun e => e.datetime_utc) now cfg.company_window_days c)
    p
  have h0 : EventOverlayEngine.decide cfg now regime m c p =
      EventOverlayEngine.decideCore cfg regime
        (EventOverlayEngine.within_window (fun e => e.datetime_utc) now cfg.macro_window_days m)
        (EventOverlayEngine.within_window (fun e => e.datetime_utc) now cfg.company_window_days c)
        p := rfl
  rw [h0, hx]
  exact ⟨le_max_left _ _, max_le (by norm_num) (min_le_right _ _)⟩

theorem macroGate_allow_iff (cfg : EventOverlayEngine.OverlayConfig)
    (regime : RegimeState) (b0 : ℚ) (n0 : List Note) (up : List MacroEvent) :
    ((EventOverlayEngine.macroGate cfg regime b0 n0 up).1 = false) ↔
    ∃ w, EventOverlayEngine.worstOf cfg up = some w ∧
      7/10 ≤ EventOverlayEngine.macroSeverity cfg w ∧
      (regime.regime_name = "risk_off" ∨ regime.regime_name = "transition") := by
  cases up with
  | nil => simp [EventOverlayEngine.macroGate, EventOverlayEngine.worstOf]
  | cons a rest =>
    simp only [EventOverlayEngine.macroGate, EventOverlayEngine.worstOf,
      Option.some.injEq, apply_ite (Prod.fst (β := ℚ × Bool × List Note))]
    by_cases h1 : regime.regime_name = "risk_off" ∧
        7/10 ≤ EventOverlayEngine.macroSeverity cfg (EventOverlayEngine.maxBySev cfg a rest)
    · rw [if_pos h1]
      simp only [eq_self_iff_true, true_iff]
      exact ⟨_, rfl, h1.2, Or.inl h1.1⟩
    · rw [if_neg h1]
      by_cases h2 : regime.regime_name = "transition" ∧
          7/10 ≤ EventOverlayEngine.macroSeverity cfg (EventOverlayEngine.maxBySev cfg a rest)
      · rw [if_pos h2]
        simp only [eq_self_iff_true, true_iff]
        exact ⟨_, rfl, h2.2, Or.inr h2.1⟩
      · rw [if_neg h2, ite_self]
        constructor
        · intro hfalse
          exact absurd hfalse (by simp)
        · rintro ⟨w, hw, hsev, hname⟩
          cases hw
          rcases hname with hn | hn
          · exact absurd ⟨hn, hsev⟩ h1
          · exact absurd ⟨hn, hsev⟩ h2

/-- C10: new positions are blocked (allow_new_positions = false) exactly
when the regime is risk_off or transition and the worst windowed macro
event has severity at least 0.70; for every other regime name (risk_on,
late_cycle, or any unmapped name) the decision allows new positions. -/
theorem decide_allow_iff (cfg : EventOverlayEngine.OverlayConfig) (now : Int)
    (regime : RegimeState) (m : List MacroEvent) (c : List CompanyEvent)
    (p : Option (List (List Nat))) :
    ((EventOverlayEngine.decide cfg now regime m c p).allow_new_positions = false) ↔
    ∃ w, EventOverlayEngine.worstOf cfg
        (EventOverlayEngine.within_window (fun e => e.datetime_utc) now
          cfg.macro_window_days m) = some w ∧
      7/10 ≤ EventOverlayEngine.macroSeverity cfg w ∧
      (regime.regime_name = "risk_off" ∨ regime.regime_name = "transition") := by
  have h0 : (EventOverlayEngine.decide cfg now regime m c p).allow_new_positions =
      (EventOverlayEngine.macroGate cfg regime
        (EventOverlayEngine.lookupQ cfg.base_risk_multiplier regime.regime_name (3/4))
        [Note.header regime.regime_name regime.confidence
          (EventOverlayEngine.lookupQ cfg.base_risk_multiplier regime.regime_name (3/4))]
        (EventOverlayEngine.within_window (fun e => e.datetime_utc) now
          cfg.macro_window_days m)).1 := rfl
  rw [h0]
  exact macroGate_allow_iff cfg regime _ _ _

/-! ### C2: the policy mapping table -/

/-- C2 counterexample: with the probabilities of a 2-cluster fit giving
label 1 confidence 0.80 ≥ 0.60, map_regime_to_policy returns late_cycle,
not the risk_off the claim asserts for 2-cluster fits: the function has no
cluster-count input and consults mapping_3 first. -/
theorem map_regime_label_one_cx :
    RegimePolicy.max_prob [("p_regime_0", 1/5), ("p_regime_1", 4/5)] = 4/5 ∧
    (3/5 : ℚ) ≤ 4/5 ∧
    (RegimePolicy.map_regime_to_policy 1
      [("p_regime_0", 1/5), ("p_regime_1", 4/5)]).regime_name = "late_cycle" ∧
    (RegimePolicy.map_regime_to_policy 1
      [("p_regime_0", 1/5), ("p_regime_1", 4/5)]).regime_name ≠ "risk_off" := by
  have hconf : RegimePolicy.max_prob [("p_regime_0", 1/5), ("p_regime_1", 4/5)] = 4/5 := by
    simp only [RegimePolicy.max_prob, List.map, List.foldl]
    norm_num [max_def]
  have hname : (RegimePolicy.map_regime_to_policy 1
      [("p_regime_0", 1/5), ("p_regime_1", 4/5)]).regime_name = "late_cycle" := by
    simp only [RegimePolicy.map_regime_to_policy, hconf]
    rw [if_neg (by norm_num)]
    simp [RegimePolicy.lookupTable, RegimePolicy.mapping_3, List.find?]
  exact ⟨hconf, by norm_num, hname, by rw [hname]; decide⟩

/-- C2 amended: when confidence = max(probabilities) ≥ 0.60 the hard label
is looked up in the single static table {0: risk_on, 1: late_cycle,
2: risk_off} regardless of cluster count (the 2-cluster table is dead code
because its keys are contained in the 3-cluster table, which is consulted
first); a label in neither table yields transition, and below 0.60 the
result is transition. -/
theorem map_regime_to_policy_name (regime_id : Int) (probs : List (String × ℚ)) :
    (RegimePolicy.map_regime_to_policy regime_id probs).regime_name =
      (if RegimePolicy.max_prob probs < 3/5 then "transition"
       else if regime_id = 0 then "risk_on"
       else if regime_id = 1 then "late_cycle"
       else if regime_id = 2 then "risk_off"
       else "transition") ∧
    (RegimePolicy.map_regime_to_policy regime_id probs).confidence =
      RegimePolicy.max_prob probs := by
  unfold RegimePolicy.map_regime_to_policy
  by_cases h : RegimePolicy.max_prob probs < 3/5
  · simp [h]
  · rw [if_neg h, if_neg h]
    refine ⟨?_, rfl⟩
    simp only [RegimePolicy.lookupTable, RegimePolicy.mapping_3, RegimePolicy.mapping_2]
    by_cases h0 : regime_id = 0
    · simp [h0, List.find?]
    · by_cases h1 : regime_id = 1
      · simp [h1, List.find?]
      · by_cases h2 : regime_id = 2
        · simp [h2, List.find?]
        · have e0 : ((0 : Int) == regime_id) = false :=
            beq_eq_false_iff_ne.mpr (Ne.symm h0)
          have e1 : ((1 : Int) == regime_id) = false :=
            beq_eq_false_iff_ne.mpr (Ne.symm h1)
          have e2 : ((2 : Int) == regime_id) = false :=
            beq_eq_false_iff_ne.mpr (Ne.symm h2)
          simp [List.find?, e0, e1, e2, h0, h1, h2]

/-! ### C3: macro severity -/

/-- C3 counterexample: a macro event with importance 0 and no catalyst
keyword gets severity 0.25, not the 0.35 the claim assigns to importance
values outside the table: int(e.importance or 1) coerces the falsy 0 to
importance 1. -/
theorem macro_severity_importance_zero_cx :
    EventOverlayEngine.macroSeverity EventOverlayEngine.defaultConfig
      { event := codes ("PMI"), country := "", category := "",
        datetime_utc := 0, importance := 0 } = 1/4 ∧
    (1/4 : ℚ) ≠ 7/20 := by
  have hkw : EventOverlayEngine.defaultConfig.high_severity_keywords.any
      (fun k => containsCodes k (upperStr (codes ("PMI")))) = false := by decide
  refine ⟨?_, by norm_num⟩
  simp only [EventOverlayEngine.macroSeverity, EventOverlayEngine.impOr1, hkw]
  norm_num

/-- C3 amended: severity is the base from the table importance 1 → 0.25,
2 → 0.55, 3 → 0.85, with importance 0 first coerced to 1 (so base 0.25)
and every other value outside the table giving 0.35, increased by 0.15 but
capped at 1.0 exactly when the uppercased event name contains a configured
high-severity keyword; the result always lies in [0, 1]. -/
theorem macro_severity_table_and_bounds (cfg : EventOverlayEngine.OverlayConfig)
    (e : MacroEvent) :
    EventOverlayEngine.macroSeverity cfg e =
      (let imp := if e.importance = 0 then 1 else e.importance
       let base : ℚ := if imp = 1 then 1/4 else if imp = 2 then 11/20
         else if imp = 3 then 17/20 else 7/20
       if cfg.high_severity_keywords.any (fun k => containsCodes k (upperStr e.event))
       then min 1 (base + 3/20) else base) ∧
    0 ≤ EventOverlayEngine.macroSeverity cfg e ∧
    EventOverlayEngine.macroSeverity cfg e ≤ 1 := by
  refine ⟨rfl, ?_, ?_⟩
  · simp only [EventOverlayEngine.macroSeverity, EventOverlayEngine.impOr1]
    split_ifs <;> norm_num [le_min_iff]
  · simp only [EventOverlayEngine.macroSeverity, EventOverlayEngine.impOr1]
    split_ifs <;> first
      | exact min_le_left _ _
      | norm_num

/-! ### C8: time dependence of decide -/

/-- C8 counterexample: identical regime state, event lists, symbols and
configuration, but two different evaluation instants: at now = 0 the FOMC
event one day ahead is inside the 3-day macro window and new positions are
blocked; ten days later the same call allows them, so the two decisions
differ and decide is not a function of the four inputs plus configuration
alone. -/
theorem decide_differs_across_time_cx :
    EventOverlayEngine.decide EventOverlayEngine.defaultConfig 0
      { regime_name := "risk_off", confidence := 9/10 }
      [{ event := codes ("FOMC Rate Decision"), country := "US", category := "",
         datetime_utc := EventOverlayEngine.dayUs, importance := 3 }] [] none ≠
    EventOverlayEngine.decide EventOverlayEngine.defaultConfig
      (10 * EventOverlayEngine.dayUs)
      { regime_name := "risk_off", confidence := 9/10 }
      [{ event := codes ("FOMC Rate Decision"), country := "US", category := "",
         datetime_utc := EventOverlayEngine.dayUs, importance := 3 }] [] none := by
  have hsev : EventOverlayEngine.macroSeverity EventOverlayEngine.defaultConfig
      { event := codes ("FOMC Rate Decision"), country := "US", category := "",
        datetime_utc := EventOverlayEngine.dayUs, importance := 3 } = 1 := by
    have hkw : EventOverlayEngine.defaultConfig.high_severity_keywords.any
        (fun k => containsCodes k (upperStr (codes ("FOMC Rate Decision")))) = true := by
      decide
    simp only [EventOverlayEngine.macroSeverity, EventOverlayEngine.impOr1, hkw]
    norm_num [min_def]
  have hw1 : EventOverlayEngine.within_window (fun e : MacroEvent => e.datetime_utc) 0
      EventOverlayEngine.defaultConfig.macro_window_days
      [{ event := codes ("FOMC Rate Decision"), country := "US", category := "",
         datetime_utc := EventOverlayEngine.dayUs, importance := 3 }] =
      [{ event := codes ("FOMC Rate Decision"), country := "US", category := "",
         datetime_utc := EventOverlayEngine.dayUs, importance := 3 }] := by decide
  have hw2 : EventOverlayEngine.within_window (fun e : MacroEvent => e.datetime_utc)
      (10 * EventOverlayEngine.dayUs)
      EventOverlayEngine.defaultConfig.macro_window_days
      [{ event := codes ("FOMC Rate Decision"), country := "US", category := "",
         datetime_utc := EventOverlayEngine.dayUs, importance := 3 }] =
      ([] : List MacroEvent) := by decide
  have h1 : (EventOverlayEngine.decide EventOverlayEngine.defaultConfig 0
      { regime_name := "risk_off", confidence := 9/10 }
      [{ event := codes ("FOMC Rate Decision"), country := "US", category := "",
         datetime_utc := EventOverlayEngine.dayUs, importance := 3 }] [] none).allow_new_positions
      = false := by
    have hrfl : (EventOverlayEngine.decide EventOverlayEngine.defaultConfig 0
        { regime_name := "risk_off", confidence := 9/10 }
        [{ event := codes ("FOMC Rate Decision"), country := "US", category := "",
           datetime_utc := EventOverlayEngine.dayUs, importance := 3 }] [] none).allow_new_positions
        = (EventOverlayEngine.macroGate EventOverlayEngine.defaultConfig
            { regime_name := "risk_off", confidence := 9/10 }
            (EventOverlayEngine.lookupQ
              EventOverlayEngine.defaultConfig.base_risk_multiplier ("risk_off") (3/4))
            [Note.header ("risk_off") (9/10)
              (EventOverlayEngine.lookupQ
                EventOverlayEngine.defaultConfig.base_risk_multiplier ("risk_off") (3/4))]
            (EventOverlayEngine.within_window (fun e : MacroEvent => e.datetime_utc) 0
              EventOverlayEngine.defaultConfig.macro_window_days
              [{ event := codes ("FOMC Rate Decision"), country := "US", category := "",
                 datetime_utc := EventOverlayEngine.dayUs, importance := 3 }])).1 := rfl
    rw [hrfl, hw1]
    refine (macroGate_allow_iff _ _ _ _ _).mpr ⟨_, rfl, ?_, Or.inl rfl⟩
    show (7/10 : ℚ) ≤ EventOverlayEngine.macroSeverity _ _
    rw [show EventOverlayEngine.maxBySev EventOverlayEngine.defaultConfig
      { event := codes ("FOMC Rate Decision"), country := "US", category := "",
        datetime_utc := EventOverlayEngine.dayUs, importance := 3 } [] =
      { event := codes ("FOMC Rate Decision"), country := "US", category := "",
        datetime_utc := EventOverlayEngine.dayUs, importance := 3 } from rfl, hsev]
    norm_num
  have h2 : (EventOverlayEngine.decide EventOverlayEngine.defaultConfig
      (10 * EventOverlayEngine.dayUs)
      { regime_name := "risk_off", confidence := 9/10 }
      [{ event := codes ("FOMC Rate Decision"), country := "US", category := "",
         datetime_utc := EventOverlayEngine.dayUs, importance := 3 }] [] none).allow_new_positions
      = true := by
    have hrfl : (EventOverlayEngine.decide EventOverlayEngine.defaultConfig
        (10 * EventOverlayEngine.dayUs)
        { regime_name := "risk_off", confidence := 9/10 }
        [{ event := codes ("FOMC Rate Decision"), country := "US", category := "",
           datetime_utc := EventOverlayEngine.dayUs, importance := 3 }] [] none).allow_new_positions
        = (EventOverlayEngine.macroGate EventOverlayEngine.defaultConfig
            { regime_name := "risk_off", confidence := 9/10 }
            (EventOverlayEngine.lookupQ
              EventOverlayEngine.defaultConfig.base_risk_multiplier ("risk_off") (3/4))
            [Note.header ("risk_off") (9/10)
              (EventOverlayEngine.lookupQ
                EventOverlayEngine.defaultConfig.base_risk_multiplier ("risk_off") (3/4))]
            (EventOverlayEngine.within_window (fun e : MacroEvent => e.datetime_utc)
              (10 * EventOverlayEngine.dayUs)
              EventOverlayEngine.defaultConfig.macro_window_days
              [{ event := codes ("FOMC Rate Decision"), country := "US", category := "",
                 datetime_utc := EventOverlayEngine.dayUs, importance := 3 }])).1 := rfl
    rw [hrfl, hw2]
    rfl
  intro heq
  rw [heq, h2] at h1
  exact absurd h1 (by simp)

/-- C8 amended: decide is a pure deterministic function of its four inputs,
its configuration, and the evaluation instant read from the clock; the
instant enters only through event windowing, so any two calls whose
windowed macro and company lists coincide (in particular two calls at the
same instant with identical inputs and configuration) return identical
decisions, and no other state is carried between calls. -/
theorem decide_time_only_through_windows (cfg : EventOverlayEngine.OverlayConfig)
    (now1 now2 : Int) (regime : RegimeState) (m : List MacroEvent)
    (c : List CompanyEvent) (p : Option (List (List Nat)))
    (hm : EventOverlayEngine.within_window (fun e => e.datetime_utc) now1
        cfg.macro_window_days m =
      EventOverlayEngine.within_window (fun e => e.datetime_utc) now2
        cfg.macro_window_days m)
    (hc : EventOverlayEngine.within_window (fun e => e.datetime_utc) now1
        cfg.company_window_days c =
      EventOverlayEngine.within_window (fun e => e.datetime_utc) now2
        cfg.company_window_days c) :
    EventOverlayEngine.decide cfg now1 regime m c p =
    EventOverlayEngine.decide cfg now2 regime m c p := by
  have h1 : EventOverlayEngine.decide cfg now1 regime m c p =
      EventOverlayEngine.decideCore cfg regime
        (EventOverlayEngine.within_window (fun e => e.datetime_utc) now1
          cfg.macro_window_days m)
        (EventOverlayEngine.within_window (fun e => e.datetime_utc) now1
          cfg.company_window_days c) p := rfl
  have h2 : EventOverlayEngine.decide cfg now2 regime m c p =
      EventOverlayEngine.decideCore cfg regime
        (EventOverlayEngine.within_window (fun e => e.datetime_utc) now2
          cfg.macro_window_days m)
        (EventOverlayEngine.within_window (fun e => e.datetime_utc) now2
          cfg.company_window_days c) p := rfl
  rw [h1, h2, hm, hc]

theorem decide_time_only_through_windows_witness :
    EventOverlayEngine.decide EventOverlayEngine.defaultConfig 0
      { regime_name := "risk_on", confidence := 9/10 } [] [] none =
    EventOverlayEngine.decide EventOverlayEngine.defaultConfig
      EventOverlayEngine.dayUs
      { regime_name := "risk_on", confidence := 9/10 } [] [] none :=
  decide_time_only_through_windows EventOverlayEngine.defaultConfig 0
    EventOverlayEngine.dayUs { regime_name := "risk_on", confidence := 9/10 }
    [] [] none rfl rfl

/-! ### C9: case-sensitive symbol filtering -/

theorem upperCode_idem (n : Nat) : upperCode (upperCode n) = upperCode n := by
  unfold upperCode
  split_ifs <;> omega

theorem mem_of_mem_stripCodes {x : Nat} {l : List Nat} (hx : x ∈ stripCodes l) :
    x ∈ l := by
  unfold stripCodes at hx
  rw [List.mem_reverse] at hx
  have hx2 := (List.dropWhile_sublist (l := (l.dropWhile isSpaceCode).reverse)
    (p := isSpaceCode)).subset hx
  rw [List.mem_reverse] at hx2
  exact (List.dropWhile_sublist (l := l) (p := isSpaceCode)).subset hx2

theorem map_fixed {α : Type} (f : α → α) (l : List α) (h : ∀ x ∈ l, f x = x) :
    l.map f = l := by
  induction l with
  | nil => rfl
  | cons a as ih =>
    rw [List.map_cons, h a (List.mem_cons_self a as),
      ih (fun x hx => h x (List.mem_cons_of_mem a hx))]

theorem upperStr_stripCodes_upperStr (l : List Nat) :
    upperStr (stripCodes (upperStr l)) = stripCodes (upperStr l) := by
  apply map_fixed
  intro x hx
  obtain ⟨y, _, rfl⟩ := List.mem_map.mp (mem_of_mem_stripCodes hx)
  exact upperCode_idem y

/-- C9: with a non-empty portfolio-symbol list, the filter set holds the
upper-cased stripped symbols but each company event symbol is compared
verbatim, so an event whose symbol is not fixed by upper-casing is never
relevant and never among the earnings that trigger the haircut, even when
it names a portfolio symbol. -/
theorem lowercase_symbol_never_relevant (cfg : EventOverlayEngine.OverlayConfig)
    (now : Int) (comp : List CompanyEvent) (ps : List (List Nat))
    (e : CompanyEvent) (hps : ps ≠ []) (he : upperStr e.symbol ≠ e.symbol) :
    e ∉ EventOverlayEngine.relevantOf (EventOverlayEngine.symsetOf (some ps))
        (EventOverlayEngine.within_window (fun x => x.datetime_utc) now
          cfg.company_window_days comp) ∧
    e ∉ EventOverlayEngine.earningsOf
        (EventOverlayEngine.relevantOf (EventOverlayEngine.symsetOf (some ps))
          (EventOverlayEngine.within_window (fun x => x.datetime_utc) now
            cfg.company_window_days comp)) := by
  have key : ∀ L : List CompanyEvent,
      e ∉ EventOverlayEngine.relevantOf (EventOverlayEngine.symsetOf (some ps)) L := by
    intro L hmem
    unfold EventOverlayEngine.relevantOf at hmem
    rw [List.mem_filter] at hmem
    obtain ⟨-, hcond⟩ := hmem
    simp only [EventOverlayEngine.symsetOf] at hcond
    rw [if_neg hps] at hcond
    have hmem2 : e.symbol ∈ (ps.filter
        (fun s => !s.isEmpty && !(stripCodes s).isEmpty)).map
        (fun s => stripCodes (upperStr s)) := by
      simpa using hcond
    obtain ⟨s, -, hsym⟩ := List.mem_map.mp hmem2
    apply he
    rw [← hsym]
    exact upperStr_stripCodes_upperStr s
  exact ⟨key _, fun hmem =>
    key _ (List.mem_filter.mp hmem).1⟩

theorem lowercase_symbol_never_relevant_witness :
    ({ symbol := codes ("aapl"), event_type := "earnings", datetime_utc := 0 } :
        CompanyEvent) ∉
      EventOverlayEngine.relevantOf
        (EventOverlayEngine.symsetOf (some [codes ("aapl")]))
        (EventOverlayEngine.within_window (fun x => x.datetime_utc) 0
          EventOverlayEngine.defaultConfig.company_window_days
          [{ symbol := codes ("aapl"), event_type := "earnings", datetime_utc := 0 }]) ∧
    ({ symbol := codes ("aapl"), event_type := "earnings", datetime_utc := 0 } :
        CompanyEvent) ∉
      EventOverlayEngine.earningsOf
        (EventOverlayEngine.relevantOf
          (EventOverlayEngine.symsetOf (some [codes ("aapl")]))
          (EventOverlayEngine.within_window (fun x => x.datetime_utc) 0
            EventOverlayEngine.defaultConfig.company_window_days
            [{ symbol := codes ("aapl"), event_type := "earnings", datetime_utc := 0 }])) :=
  lowercase_symbol_never_relevant EventOverlayEngine.defaultConfig 0
    [{ symbol := codes ("aapl"), event_type := "earnings", datetime_utc := 0 }]
    [codes ("aapl")]
    { symbol := codes ("aapl"), event_type := "earnings", datetime_utc := 0 }
    (by decide) (by decide)

/-! ### C5: pandas forward returns and quantile grouping -/

theorem pdShift_length (k : Nat) (xs : List (Option ℚ)) :
    (pdShift k xs).length = xs.length := by
  simp only [pdShift, List.length_append, List.length_drop, List.length_replicate]
  omega

theorem pdRollingSum_length (h : Nat) (xs : List (Option ℚ)) :
    (pdRollingSum h xs).length = xs.length := by
  simp [pdRollingSum]

theorem forward_log_return_length (ret : List (Option ℚ)) (h : Nat) :
    (forward_log_return ret h).length = ret.length := by
  simp [forward_log_return, pdShift_length, pdRollingSum_length]

theorem pdShift_getElem (k : Nat) (xs : List (Option ℚ)) (i : Nat) :
    (pdShift k xs)[i]? =
      if i + k < xs.length then xs[i + k]?
      else if i < xs.length then some none else none := by
  unfold pdShift
  by_cases h1 : i + k < xs.length
  · rw [if_pos h1, List.getElem?_append_left (by rw [List.length_drop]; omega),
      List.getElem?_drop]
    congr 1
    omega
  · rw [if_neg h1]
    by_cases h2 : i < xs.length
    · rw [if_pos h2,
        List.getElem?_append_right (by rw [List.length_drop]; omega),
        List.getElem?_replicate,
        if_pos (by rw [List.length_drop]; omega)]
    · rw [if_neg h2]
      refine List.getElem?_eq_none ?_
      rw [List.length_append, List.length_drop, List.length_replicate]
      omega

theorem pdRollingSum_getElem (h : Nat) (xs : List (Option ℚ)) (i : Nat)
    (hi : i < xs.length) :
    (pdRollingSum h xs)[i]? =
      some (if i + 1 < h then none else osum ((xs.drop (i + 1 - h)).take h)) := by
  unfold pdRollingSum
  rw [List.getElem?_map, List.getElem?_range hi]
  rfl

theorem osum_map_some (l : List ℚ) : osum (l.map some) = some l.sum := by
  induction l with
  | nil => simp [osum]
  | cons a l ih => simp [osum, ih]

theorem osum_append_none (l1 l2 : List (Option ℚ)) :
    osum (l1 ++ none :: l2) = none := by
  induction l1 with
  | nil => simp [osum]
  | cons a l ih =>
    cases a with
    | none => simp [osum]
    | some x => simp [osum, ih]

theorem pdShift_one_map_some (ret : List ℚ) (hn : 1 ≤ ret.length) :
    pdShift 1 (ret.map some) = (ret.drop 1).map some ++ [none] := by
  unfold pdShift
  rw [← List.map_drop, List.length_map, show min 1 ret.length = 1 from by omega]
  rfl

theorem shift_drop_eq (ret : List ℚ) (i : Nat) (hn : 1 ≤ ret.length)
    (hi : i ≤ ret.length - 1) :
    (pdShift 1 (ret.map some)).drop i = (ret.drop (i + 1)).map some ++ [none] := by
  rw [pdShift_one_map_some ret hn, List.drop_append_eq_append_drop,
    show i - ((ret.drop 1).map some).length = 0 from by
      simp only [List.length_map, List.length_drop]; omega,
    List.drop_zero, ← List.map_drop, List.drop_drop,
    show (1 : Nat) + i = i + 1 from by omega]

theorem window_full (ret : List ℚ) (i h : Nat) (hh : 1 ≤ h)
    (hw : i + h < ret.length) :
    ((pdShift 1 (ret.map some)).drop i).take h =
      ((ret.drop (i + 1)).take h).map some := by
  rw [shift_drop_eq ret i (by omega) (by omega), List.take_append_eq_append_take,
    show h - ((ret.drop (i + 1)).map some).length = 0 from by
      simp only [List.length_map, List.length_drop]; omega,
    List.take_zero, List.append_nil, ← List.map_take]

theorem window_cut (ret : List ℚ) (i h : Nat) (hh : 1 ≤ h)
    (hw : i + h = ret.length) :
    ((pdShift 1 (ret.map some)).drop i).take h =
      ((ret.drop (i + 1)).take h).map some ++ [none] := by
  rw [shift_drop_eq ret i (by omega) (by omega), List.take_append_eq_append_take,
    List.take_of_length_le (by simp only [List.length_map, List.length_drop]; omega),
    show h - ((ret.drop (i + 1)).map some).length = 1 from by
      simp only [List.length_map, List.length_drop]; omega]
  congr 1
  rw [List.take_of_length_le (by simp only [List.length_drop]; omega)]


theorem forward_log_return_closed_form (ret : List ℚ) (h : Nat) (hh : 1 ≤ h) :
    forward_log_return (ret.map some) h =
      (List.range ret.length).map
        (fun i => if i + h < ret.length
          then some (((ret.drop (i + 1)).take h).sum) else none) := by
  apply List.ext_getElem?
  intro i
  by_cases hi : i < ret.length
  case neg =>
    rw [List.getElem?_eq_none (by rw [forward_log_return_length, List.length_map]; omega),
      List.getElem?_eq_none (by rw [List.length_map, List.length_range]; omega)]
  case pos =>
    rw [List.getElem?_map, List.getElem?_range hi]
    unfold forward_log_return
    rw [pdShift_getElem, pdRollingSum_length, pdShift_length, List.length_map]
    by_cases h1 : i + (h - 1) < ret.length
    · rw [if_pos h1,
        pdRollingSum_getElem h (pdShift 1 (ret.map some)) (i + (h - 1))
          (by rw [pdShift_length, List.length_map]; omega),
        if_neg (by omega),
        show i + (h - 1) + 1 - h = i from by omega]
      by_cases h2 : i + h < ret.length
      · rw [window_full ret i h hh h2, osum_map_some]
        simp [h2]
      · have h3 : i + h = ret.length := by omega
        rw [window_cut ret i h hh h3,
          show ((ret.drop (i + 1)).take h).map some ++ [none] =
            ((ret.drop (i + 1)).take h).map some ++ none :: [] from rfl,
          osum_append_none]
        simp [h2]
    · rw [if_neg h1, if_pos hi]
      simp [show ¬ i + h < ret.length from by omega]

theorem zip_filterMap_range {α β γ : Type} (f : α × β → Option γ) (d1 : α) (d2 : β) :
    ∀ (l1 : List α) (l2 : List β), l1.length = l2.length →
    (l1.zip l2).filterMap f =
      (List.range l2.length).filterMap (fun i => f (l1.getD i d1, l2.getD i d2)) := by
  intro l1
  induction l1 with
  | nil =>
    intro l2 hlen
    cases l2 with
    | nil => rfl
    | cons b bs => simp at hlen
  | cons a l1 ih =>
    intro l2 hlen
    cases l2 with
    | nil => simp at hlen
    | cons b l2 =>
      have hlen2 : l1.length = l2.length := by simpa using hlen
      rw [List.zip_cons_cons, List.filterMap_cons, List.length_cons,
        List.range_succ_eq_map, List.filterMap_cons, List.filterMap_map]
      simp only [List.getD_cons_zero]
      have htail : (List.range l2.length).filterMap
          ((fun i => f ((a :: l1).getD i d1, (b :: l2).getD i d2)) ∘ Nat.succ) =
          (List.range l2.length).filterMap (fun i => f (l1.getD i d1, l2.getD i d2)) := by
        apply List.filterMap_congr
        intro x hx
        simp [Function.comp, List.getD_cons_succ]
      rw [htail, ← ih l2 hlen2]

theorem filterMap_range_restrict {β : Type} (m n : Nat) (F : Nat → Option β)
    (hmn : m ≤ n) (hnone : ∀ i, m ≤ i → F i = none) :
    (List.range n).filterMap F = (List.range m).filterMap F := by
  rw [show n = m + (n - m) from by omega, List.range_add, List.filterMap_append]
  have hnil : ((List.range (n - m)).map (m + ·)).filterMap F = [] := by
    rw [List.filterMap_map]
    refine List.filterMap_eq_nil_iff.mpr ?_
    intro x hx
    exact hnone (m + x) (by omega)
  rw [hnil, List.append_nil]

theorem groupVals_dropnaPairs_eq_keptVals (ret : List ℚ) (regimes : List Int)
    (h : Nat) (r : Int) (hh : 1 ≤ h) (hlen : regimes.length = ret.length) :
    groupVals (dropnaPairs regimes (forward_log_return (ret.map some) h)) r =
      keptVals ret regimes h r := by
  unfold dropnaPairs groupVals keptVals
  rw [List.filterMap_filterMap]
  have hflen : (forward_log_return (ret.map some) h).length = ret.length := by
    rw [forward_log_return_length, List.length_map]
  rw [zip_filterMap_range _ 0 none regimes _ (by rw [hflen]; exact hlen), hflen]
  have hstep : ∀ i, i ∈ List.range ret.length →
      ((match (forward_log_return (ret.map some) h).getD i none with
        | some v => some (regimes.getD i 0, v)
        | none => none).bind fun q => if q.1 = r then some q.2 else none) =
      (if i + h < ret.length then
        (if regimes.getD i 0 = r then some (((ret.drop (i + 1)).take h).sum) else none)
       else none) := by
    intro i hi
    have hi2 := List.mem_range.mp hi
    have hv : (forward_log_return (ret.map some) h).getD i none =
        (if i + h < ret.length then some (((ret.drop (i + 1)).take h).sum) else none) := by
      rw [List.getD_eq_getElem?_getD, forward_log_return_closed_form ret h hh,
        List.getElem?_map, List.getElem?_range hi2]
      rfl
    rw [hv]
    by_cases h2 : i + h < ret.length
    · rw [if_pos h2, if_pos h2]
      rfl
    · rw [if_neg h2, if_neg h2]
      rfl
  rw [List.filterMap_congr hstep]
  rw [filterMap_range_restrict (ret.length - h) ret.length _ (by omega)
    (fun i hi => by rw [if_neg (by omega)])]
  apply List.filterMap_congr
  intro x hx
  rw [if_pos (by have := List.mem_range.mp hx; omega)]

/-- C5: for horizon h and every position i of the return series, the
forward return is the sum of the daily log returns at positions i+1
through i+h (excluding the return of position i itself); it is NaN for the final
h positions; and the grouped series fed to the 5th/50th/95th percentiles
for regime r is exactly the forward returns of the surviving (non-final)
rows labelled r — the NaN rows are dropped before grouping. -/
theorem forward_return_quantile_spec (ret : List ℚ) (regimes : List Int)
    (h : Nat) (r : Int) (hh : 1 ≤ h) (hlen : regimes.length = ret.length) :
    (∀ i, i + h < ret.length →
      (forward_log_return (ret.map some) h)[i]? =
        some (some (((ret.drop (i + 1)).take h).sum)))
  ∧ (∀ i, i < ret.length → ret.length ≤ i + h →
      (forward_log_return (ret.map some) h)[i]? = some none)
  ∧ regime_conditioned_quantiles regimes (ret.map some) h r =
      (pdQuantile (keptVals ret regimes h r) (1/20),
       pdQuantile (keptVals ret regimes h r) (1/2),
       pdQuantile (keptVals ret regimes h r) (19/20)) := by
  refine ⟨?_, ?_, ?_⟩
  · intro i hi
    rw [forward_log_return_closed_form ret h hh, List.getElem?_map,
      List.getElem?_range (by omega)]
    simp [hi]
  · intro i hi1 hi2
    rw [forward_log_return_closed_form ret h hh, List.getElem?_map,
      List.getElem?_range hi1]
    simp [show ¬ i + h < ret.length from by omega]
  · show (pdQuantile (groupVals (dropnaPairs regimes
        (forward_log_return (ret.map some) h)) r) (1/20),
      pdQuantile (groupVals (dropnaPairs regimes
        (forward_log_return (ret.map some) h)) r) (1/2),
      pdQuantile (groupVals (dropnaPairs regimes
        (forward_log_return (ret.map some) h)) r) (19/20)) = _
    rw [groupVals_dropnaPairs_eq_keptVals ret regimes h r hh hlen]

theorem forward_return_quantile_spec_witness :
    (∀ i, i + 1 < ([1, 2, 4] : List ℚ).length →
      (forward_log_return (([1, 2, 4] : List ℚ).map some) 1)[i]? =
        some (some (((([1, 2, 4] : List ℚ).drop (i + 1)).take 1).sum)))
  ∧ (∀ i, i < ([1, 2, 4] : List ℚ).length →
      ([1, 2, 4] : List ℚ).length ≤ i + 1 →
      (forward_log_return (([1, 2, 4] : List ℚ).map some) 1)[i]? = some none)
  ∧ regime_conditioned_quantiles [0, 0, 1] (([1, 2, 4] : List ℚ).map some) 1 0 =
      (pdQuantile (keptVals [1, 2, 4] [0, 0, 1] 1 0) (1/20),
       pdQuantile (keptVals [1, 2, 4] [0, 0, 1] 1 0) (1/2),
       pdQuantile (keptVals [1, 2, 4] [0, 0, 1] 1 0) (19/20)) :=
  forward_return_quantile_spec [1, 2, 4] [0, 0, 1] 1 0 (by norm_num) rfl

/-! ### C6: insufficient-row aborts happen before fitting -/

theorem run_pipeline_px_short {P F : Type} (env : Pipeline.PipelineEnv P F)
    (hn : env.n_regimes = 2 ∨ env.n_regimes = 3)
    (hpx : Pipeline.optCount env.px < 60) (fit2 : Option Pipeline.FitOut) :
    Pipeline.run_pipeline { env with fit := fit2 } =
      Except.error (Pipeline.PipelineError.insufficientPrices env.ticker
        (Pipeline.optCount env.px)) := by
  unfold Pipeline.run_pipeline
  dsimp only
  rw [if_pos hn, if_pos (Or.inr hpx)]

theorem optCount_pos_not_none {β : Type} (o : Option (List β))
    (h : 60 ≤ Pipeline.optCount o) :
    ¬(o.isNone = true ∨ Pipeline.optCount o < 60) := by
  rintro (h2 | h2)
  · rcases o with _ | l
    · simp [Pipeline.optCount] at h
    · simp at h2
  · omega

theorem run_pipeline_mkt_short {P F : Type} (env : Pipeline.PipelineEnv P F)
    (hn : env.n_regimes = 2 ∨ env.n_regimes = 3)
    (hpx : 60 ≤ Pipeline.optCount env.px)
    (hmkt : Pipeline.optCount env.mkt < 60) (fit2 : Option Pipeline.FitOut) :
    Pipeline.run_pipeline { env with fit := fit2 } =
      Except.error (Pipeline.PipelineError.insufficientMarket env.market_ticker
        (Pipeline.optCount env.mkt)) := by
  unfold Pipeline.run_pipeline
  dsimp only
  rw [if_pos hn, if_neg (optCount_pos_not_none env.px hpx),
    if_pos (Or.inr hmkt)]

theorem run_pipeline_feats_short {P F : Type} (env : Pipeline.PipelineEnv P F)
    (hn : env.n_regimes = 2 ∨ env.n_regimes = 3)
    (hpx : 60 ≤ Pipeline.optCount env.px)
    (hmkt : 60 ≤ Pipeline.optCount env.mkt)
    (hfeats : Pipeline.optCount env.feats < 60) (fit2 : Option Pipeline.FitOut) :
    Pipeline.run_pipeline { env with fit := fit2 } =
      Except.error (Pipeline.PipelineError.insufficientFeatures env.ticker
        (Pipeline.optCount env.feats)) := by
  unfold Pipeline.run_pipeline
  dsimp only
  rw [if_pos hn, if_neg (optCount_pos_not_none env.px hpx),
    if_neg (optCount_pos_not_none env.mkt hmkt), if_pos (Or.inr hfeats)]

/-- C6: whenever the loaded price table or the trimmed feature table has
fewer than 60 rows (given a valid n_regimes, which is validated first),
run_pipeline aborts with a typed row-count error whose rendered message
contains both the observed row count and the required minimum 60, and the
outcome is the same whatever the regime fit would have returned — the
abort happens before any fitting. -/
theorem run_pipeline_insufficient_rows {P F : Type} (env : Pipeline.PipelineEnv P F)
    (hn : env.n_regimes = 2 ∨ env.n_regimes = 3)
    (hlow : Pipeline.optCount env.px < 60 ∨ Pipeline.optCount env.feats < 60) :
    ∃ e, Pipeline.run_pipeline env = Except.error e ∧
      Pipeline.isRowCountError e = true ∧
      Pipeline.errGot e < 60 ∧
      (∃ a b, Pipeline.renderError e = a ++ toString (Pipeline.errGot e) ++ b) ∧
      (∃ a b, Pipeline.renderError e = a ++ ("60") ++ b) ∧
      (∀ fit2, Pipeline.run_pipeline { env with fit := fit2 } = Except.error e) := by
  by_cases hpx : Pipeline.optCount env.px < 60
  · refine ⟨Pipeline.PipelineError.insufficientPrices env.ticker
      (Pipeline.optCount env.px),
      run_pipeline_px_short env hn hpx env.fit, rfl, hpx, ?_, ?_,
      run_pipeline_px_short env hn hpx⟩
    · exact ⟨"Not enough price data for " ++ env.ticker ++ ". Need >= " ++ "60"
        ++ " rows, got ", ".", by simp [Pipeline.renderError, Pipeline.errGot,
          String.append_assoc]⟩
    · exact ⟨"Not enough price data for " ++ env.ticker ++ ". Need >= ",
        " rows, got " ++ toString (Pipeline.optCount env.px) ++ ".",
        by simp [Pipeline.renderError, String.append_assoc]; rfl⟩
  · have hfe : Pipeline.optCount env.feats < 60 := by tauto
    have hpx2 : 60 ≤ Pipeline.optCount env.px := by omega
    by_cases hmkt : Pipeline.optCount env.mkt < 60
    · refine ⟨Pipeline.PipelineError.insufficientMarket env.market_ticker
        (Pipeline.optCount env.mkt),
        run_pipeline_mkt_short env hn hpx2 hmkt env.fit, rfl, hmkt, ?_, ?_,
        run_pipeline_mkt_short env hn hpx2 hmkt⟩
      · exact ⟨"Not enough price data for market_ticker=" ++ env.market_ticker
          ++ ". Need >= " ++ "60" ++ " rows, got ", ".",
          by simp [Pipeline.renderError, Pipeline.errGot, String.append_assoc]⟩
      · exact ⟨"Not enough price data for market_ticker=" ++ env.market_ticker
          ++ ". Need >= ",
          " rows, got " ++ toString (Pipeline.optCount env.mkt) ++ ".",
          by simp [Pipeline.renderError, String.append_assoc]; rfl⟩
    · have hmkt2 : 60 ≤ Pipeline.optCount env.mkt := by omega
      refine ⟨Pipeline.PipelineError.insufficientFeatures env.ticker
        (Pipeline.optCount env.feats),
        run_pipeline_feats_short env hn hpx2 hmkt2 hfe env.fit, rfl, hfe, ?_, ?_,
        run_pipeline_feats_short env hn hpx2 hmkt2 hfe⟩
      · exact ⟨"Not enough feature rows for " ++ env.ticker ++ ". Need >= "
          ++ "60" ++ ", got ", ".", by simp [Pipeline.renderError,
            Pipeline.errGot, String.append_assoc]⟩
      · exact ⟨"Not enough feature rows for " ++ env.ticker ++ ". Need >= ",
          ", got " ++ toString (Pipeline.optCount env.feats) ++ ".",
          by simp [Pipeline.renderError, String.append_assoc]; rfl⟩

theorem run_pipeline_insufficient_rows_witness :
    ∃ e, Pipeline.run_pipeline
        ({ ticker := "AAPL", market_ticker := "SPY", n_regimes := 3,
           px := some (List.replicate 10 ()), mkt := some (List.replicate 70 ()),
           feats := some (List.replicate 70 ()), cleaned := List.replicate 70 (),
           ret := [], fit := none, news := Except.ok
             { news_sentiment := 0, news_risk := 0, topics := [] } } :
          Pipeline.PipelineEnv Unit Unit) = Except.error e ∧
      Pipeline.isRowCountError e = true ∧
      Pipeline.errGot e < 60 ∧
      (∃ a b, Pipeline.renderError e = a ++ toString (Pipeline.errGot e) ++ b) ∧
      (∃ a b, Pipeline.renderError e = a ++ ("60") ++ b) ∧
      (∀ fit2, Pipeline.run_pipeline
        { ({ ticker := "AAPL", market_ticker := "SPY", n_regimes := 3,
             px := some (List.replicate 10 ()), mkt := some (List.replicate 70 ()),
             feats := some (List.replicate 70 ()), cleaned := List.replicate 70 (),
             ret := [], fit := none, news := Except.ok
               { news_sentiment := 0, news_risk := 0, topics := [] } } :
            Pipeline.PipelineEnv Unit Unit) with fit := fit2 } = Except.error e) :=
  run_pipeline_insufficient_rows _ (Or.inr rfl) (Or.inl (by decide))

/-! ### C7: news failure degrades to a zeroed summary -/

theorem run_pipeline_ok {P F : Type} (env : Pipeline.PipelineEnv P F)
    (hpre : Pipeline.preChecks env) :
    ∃ fo, env.fit = some fo ∧
      Pipeline.run_pipeline env = Except.ok (Pipeline.buildReport env fo) := by
  obtain ⟨hn, h1, h2, h3, hcl, fo, hfit, hrows, hcol⟩ := hpre
  refine ⟨fo, hfit, ?_⟩
  unfold Pipeline.run_pipeline
  rw [if_pos hn,
    if_neg (optCount_pos_not_none env.px (by
      obtain ⟨l, hl, hlen⟩ := h1
      rw [hl]
      simpa [Pipeline.optCount] using hlen)),
    if_neg (optCount_pos_not_none env.mkt (by
      obtain ⟨l, hl, hlen⟩ := h2
      rw [hl]
      simpa [Pipeline.optCount] using hlen)),
    if_neg (optCount_pos_not_none env.feats (by
      obtain ⟨l, hl, hlen⟩ := h3
      rw [hl]
      simpa [Pipeline.optCount] using hlen)),
    if_neg (Nat.not_lt.mpr hcl)]
  simp only [hfit]
  rw [if_neg (fun h => hrows (List.length_eq_zero.mp h)),
    if_neg (by rw [hcol]; exact fun h => Bool.noConfusion h)]

/-- C7: if the news fetch/scoring step raises, run_pipeline still succeeds:
the news summary of the report is zeroed (sentiment 0, risk 0, no topics, the
exception message recorded), and every other report field except the
news-dependent watchouts equals the one produced with any successful news
outcome. -/
theorem run_pipeline_news_degrades {P F : Type} (env : Pipeline.PipelineEnv P F)
    (msg : String) (hnews : env.news = Except.error msg)
    (hpre : Pipeline.preChecks env) :
    ∃ r, Pipeline.run_pipeline env = Except.ok r ∧
      r.news.news_sentiment = 0 ∧ r.news.news_risk = 0 ∧ r.news.topics = [] ∧
      r.news.err = some msg ∧
      ∀ m r2, Pipeline.run_pipeline { env with news := Except.ok m } =
          Except.ok r2 →
        r2.ticker = r.ticker ∧ r2.asof = r.asof ∧ r2.regime = r.regime ∧
        r2.regime_probs = r.regime_probs ∧ r2.expected_5d = r.expected_5d ∧
        r2.expected_20d = r.expected_20d ∧ r2.n_rows_used = r.n_rows_used ∧
        r2.regime_counts = r.regime_counts ∧
        r2.min_regime_size = r.min_regime_size ∧ r2.warning = r.warning := by
  obtain ⟨fo, hfit, hok⟩ := run_pipeline_ok env hpre
  have hnewsfield : (Pipeline.buildReport env fo).news =
      { news_sentiment := 0, news_risk := 0, topics := [], err := some msg } := by
    show (match env.news with
      | Except.ok m => m
      | Except.error e =>
        { news_sentiment := 0, news_risk := 0, topics := [], err := some e }) =
      ({ news_sentiment := 0, news_risk := 0, topics := [], err := some msg } :
        NewsMeta)
    rw [hnews]
  refine ⟨Pipeline.buildReport env fo, hok, ?_, ?_, ?_, ?_, ?_⟩
  · rw [hnewsfield]
  · rw [hnewsfield]
  · rw [hnewsfield]
  · rw [hnewsfield]
  · intro m r2 h2
    have hpre2 : Pipeline.preChecks { env with news := Except.ok m } := hpre
    obtain ⟨fo2, hfit2, hok2⟩ :=
      run_pipeline_ok { env with news := Except.ok m } hpre2
    have hfo : fo2 = fo := by
      have : some fo2 = some fo := by
        rw [← hfit]
        exact hfit2.symm
      exact Option.some.inj this
    rw [hfo] at hok2
    rw [hok2] at h2
    have hr2 : r2 = Pipeline.buildReport { env with news := Except.ok m } fo :=
      (Except.ok.inj h2).symm
    subst hr2
    exact ⟨rfl, rfl, rfl, rfl, rfl, rfl, rfl, rfl, rfl, rfl⟩

theorem run_pipeline_news_degrades_witness :
    ∃ r, Pipeline.run_pipeline
        ({ ticker := "AAPL", market_ticker := "SPY", n_regimes := 2,
           px := some (List.replicate 60 ()), mkt := some (List.replicate 60 ()),
           feats := some (List.replicate 60 ()), cleaned := List.replicate 60 (),
           ret := [],
           fit := some { rows := [{ date := "2024-01-02", regime := 0, cols := [] }], hasRegimeCol := true },
           news := Except.error "boom" } : Pipeline.PipelineEnv Unit Unit) =
        Except.ok r ∧
      r.news.news_sentiment = 0 ∧ r.news.news_risk = 0 ∧ r.news.topics = [] ∧
      r.news.err = some "boom" ∧
      ∀ m r2, Pipeline.run_pipeline
          ({ ticker := "AAPL", market_ticker := "SPY", n_regimes := 2,
             px := some (List.replicate 60 ()), mkt := some (List.replicate 60 ()),
             feats := some (List.replicate 60 ()), cleaned := List.replicate 60 (),
             ret := [],
             fit := some { rows := [{ date := "2024-01-02", regime := 0, cols := [] }], hasRegimeCol := true },
             news := Except.ok m } : Pipeline.PipelineEnv Unit Unit) = Except.ok r2 →
        r2.ticker = r.ticker ∧ r2.asof = r.asof ∧ r2.regime = r.regime ∧
        r2.regime_probs = r.regime_probs ∧ r2.expected_5d = r.expected_5d ∧
        r2.expected_20d = r.expected_20d ∧ r2.n_rows_used = r.n_rows_used ∧
        r2.regime_counts = r.regime_counts ∧
        r2.min_regime_size = r.min_regime_size ∧ r2.warning = r.warning :=
  run_pipeline_news_degrades _ "boom" rfl
    ⟨Or.inl rfl,
     ⟨List.replicate 60 (), rfl, by simp⟩,
     ⟨List.replicate 60 (), rfl, by simp⟩,
     ⟨List.replicate 60 (), rfl, by simp⟩,
     by simp,
     ⟨{ rows := [{ date := "2024-01-02", regime := 0, cols := [] }],
        hasRegimeCol := true }, rfl, by simp, rfl⟩⟩
